import Mathlib

/-!
Shallow embedding of the Eye_Touch interaction-test core
(`algorithm_interface.py`, `interaction_test.py`, `main_window.py`)
and proofs about its region grid, region tracking, dwell test,
target-selection test and statistics aggregation.

Modelling conventions:
* Python `float` times and coordinates are modelled as `ℚ` (the code only
  adds, subtracts, divides and compares them; no float-rounding behaviour is
  relevant to any statement proved here).
* `time.time()` calls are modelled by passing the current time `now : ℚ`
  explicitly to each handler.
* Python truthiness of an `Optional[float]` (`if self.start_time:`) is
  modelled by `py_truthy`: `None` and `0.0` are falsy.
* Qt signal emissions of `TestResult` are modelled by returning the list of
  results emitted during a call, in emission order.
* UI-only actions (labels, timers, painting) are dropped; the progress-bar
  *value* is kept as part of the state because the source uses it as the
  visible "accumulated progress".
-/

/-- Truthiness of a Python `Optional[float]`: `None` and `0.0` are falsy. -/
def py_truthy (o : Option ℚ) : Bool :=
  match o with
  | none => false
  | some t => !(t == 0)

/-- Python `int()` on a float: truncation toward zero. -/
def py_int (q : ℚ) : ℤ :=
  if 0 ≤ q then ⌊q⌋ else ⌈q⌉

/-- `GazePoint` dataclass, `algorithm_interface.py` lines 21-27. -/
structure GazePoint where
  screen_x : ℚ
  screen_y : ℚ
  confidence : ℚ
  timestamp : ℚ
deriving DecidableEq

/-- A region dict as built by `RegionManager._create_regions`,
`algorithm_interface.py` lines 194-203. -/
structure Region where
  id : Nat
  name : String
  x : ℚ
  y : ℚ
  width : ℚ
  height : ℚ
  center_x : ℚ
  center_y : ℚ
deriving DecidableEq

/-- A history entry appended by `RegionManager.update_current_region`,
`algorithm_interface.py` lines 221-224: `{'region': ..., 'timestamp': ...}`. -/
structure RegionTransition where
  region : Option Region
  timestamp : ℚ
deriving DecidableEq

namespace RegionManager

/-- `RegionManager._create_regions`, `algorithm_interface.py` lines 186-206:
row-major grid of `rows × cols` regions tiling `screen_width × screen_height`. -/
def create_regions (screen_width screen_height : ℚ) (rows cols : Nat) : List Region :=
  let region_width := screen_width / (cols : ℚ)
  let region_height := screen_height / (rows : ℚ)
  (List.range rows).flatMap fun row =>
    (List.range cols).map fun col =>
      { id := row * cols + col
        name := "区域_" ++ toString (row + 1) ++ "_" ++ toString (col + 1)
        x := (col : ℚ) * region_width
        y := (row : ℚ) * region_height
        width := region_width
        height := region_height
        center_x := (col : ℚ) * region_width + region_width / 2
        center_y := (row : ℚ) * region_height + region_height / 2 }

/-- The containment test of `RegionManager.get_region_by_point`,
`algorithm_interface.py` lines 211-212: closed rectangle on all four sides. -/
def contains_point (r : Region) (x y : ℚ) : Bool :=
  decide (r.x ≤ x ∧ x ≤ r.x + r.width ∧ r.y ≤ y ∧ y ≤ r.y + r.height)

/-- `RegionManager.get_region_by_point`, `algorithm_interface.py` lines
208-214: first region in creation (row-major) order containing the point,
else `None`.  The source method only reads state, so it is modelled as a
pure function of the region list. -/
def get_region_by_point (regions : List Region) (x y : ℚ) : Option Region :=
  regions.find? (fun r => contains_point r x y)

/-- Mutable state of a `RegionManager`, `algorithm_interface.py`
lines 177-184 (the grid parameters are frozen into `regions`). -/
structure State where
  regions : List Region
  current_region : Option Region
  region_history : List RegionTransition
deriving DecidableEq

/-- `RegionManager.__init__`, `algorithm_interface.py` lines 177-184. -/
def mk_manager (screen_width screen_height : ℚ) (rows cols : Nat) : State :=
  { regions := create_regions screen_width screen_height rows cols
    current_region := none
    region_history := [] }

/-- `RegionManager.update_current_region`, `algorithm_interface.py` lines
216-224: resolve the point; when the resolved region differs (Python `!=`,
structural dict comparison) from the current one, replace it and append a
history entry stamped with the current time. -/
def update_current_region (st : State) (x y : ℚ) (now : ℚ) : State :=
  let new_region := get_region_by_point st.regions x y
  if new_region ≠ st.current_region then
    { st with current_region := new_region
              region_history := st.region_history ++ [⟨new_region, now⟩] }
  else st

end RegionManager

namespace RegionGridWidget

/-- State of `RegionGridWidget`, `main_window.py` lines 73-77 (the owned
region manager plus the last stored gaze sample). -/
structure State where
  region_manager : RegionManager.State
  current_gaze_point : Option GazePoint
deriving DecidableEq

/-- `RegionGridWidget.update_gaze_point`, `main_window.py` lines 90-108:
ignore a sample equal (dataclass equality) to the stored one; store the new
sample; only for a non-`None` sample forward its coordinates to
`RegionManager.update_current_region`.  Signal emission and repainting are
UI-only and dropped. -/
def update_gaze_point (st : State) (gaze_point : Option GazePoint) (now : ℚ) : State :=
  if gaze_point ≠ st.current_gaze_point then
    let st1 : State := { st with current_gaze_point := gaze_point }
    match gaze_point with
    | some gp =>
        { st1 with region_manager :=
            RegionManager.update_current_region st1.region_manager gp.screen_x gp.screen_y now }
    | none => st1
  else st

end RegionGridWidget

/-- `TestType` enum, `interaction_test.py` lines 22-27. -/
inductive TestType where
  | REGION_DWELL
  | TARGET_SELECTION
  | PATH_TRACKING
  | SPEED_ACCURACY
deriving DecidableEq

/-- `TestResult` dataclass, `interaction_test.py` lines 29-38. -/
structure TestResult where
  test_type : TestType
  success : Bool
  duration : ℚ
  accuracy : ℚ
  target_region : Option Region
  actual_regions : List Region
  timestamp : ℚ
deriving DecidableEq

namespace RegionDwellTest

/-- State of `RegionDwellTest`, `interaction_test.py` lines 45-52 plus the
progress-bar value and maximum set up in `init_ui` (lines 66-68). -/
structure State where
  target_region : Region
  dwell_time : ℚ
  start_time : Option ℚ
  dwell_start_time : Option ℚ
  is_in_target : Bool
  test_active : Bool
  progress_bar : ℤ
  progress_bar_max : ℤ
deriving DecidableEq

/-- `RegionDwellTest.__init__`, `interaction_test.py` lines 45-54
(`init_ui` sets the bar maximum to `int(dwell_time * 100)` and its value
to 0). -/
def mk_test (target_region : Region) (dwell_time : ℚ) : State :=
  { target_region := target_region
    dwell_time := dwell_time
    start_time := none
    dwell_start_time := none
    is_in_target := false
    test_active := false
    progress_bar := 0
    progress_bar_max := py_int (dwell_time * 100) }

/-- `RegionDwellTest.start_test`, `interaction_test.py` lines 82-87. -/
def start_test (st : State) (now : ℚ) : State :=
  { st with test_active := true, start_time := some now }

/-- `RegionDwellTest.stop_test`, `interaction_test.py` lines 89-92. -/
def stop_test (st : State) : State :=
  { st with test_active := false }

/-- `RegionDwellTest.complete_test`, `interaction_test.py` lines 134-152:
stop, compute duration (`time.time() - start_time` when `start_time` is
truthy, else 0) and accuracy (1.0 on success else 0.0), and emit the
`TestResult`. -/
def complete_test (st : State) (success : Bool) (now : ℚ) : State × TestResult :=
  let st1 := stop_test st
  let total_duration := if py_truthy st.start_time then now - st.start_time.getD 0 else 0
  let accuracy : ℚ := if success then 1 else 0
  (st1,
   { test_type := TestType.REGION_DWELL
     success := success
     duration := total_duration
     accuracy := accuracy
     target_region := some st.target_region
     actual_regions := if success then [st.target_region] else []
     timestamp := now })

/-- The in-target test of `RegionDwellTest.update_gaze_point`,
`interaction_test.py` lines 100-101: non-`None` region with matching id. -/
def in_target_check (current_region : Option Region) (target : Region) : Bool :=
  match current_region with
  | some r => r.id == target.id
  | none => false

/-- `RegionDwellTest.update_gaze_point`, `interaction_test.py` lines 94-114:
no-op when inactive; on entering the target set `is_in_target` and record
`dwell_start_time := now`; on leaving clear both and reset the progress bar
to zero. -/
def update_gaze_point (st : State) (current_region : Option Region) (now : ℚ) : State :=
  if !st.test_active then st
  else
    let in_target := in_target_check current_region st.target_region
    if in_target && !st.is_in_target then
      { st with is_in_target := true, dwell_start_time := some now }
    else if !in_target && st.is_in_target then
      { st with is_in_target := false, dwell_start_time := none, progress_bar := 0 }
    else st

/-- `RegionDwellTest.update_progress`, `interaction_test.py` lines 116-132:
no-op when inactive; when in target with a truthy `dwell_start_time`,
compute `progress = min(elapsed / dwell_time, 1.0)`, store
`int(progress * maximum)` in the bar and complete with success when
`progress >= 1.0`; then — with no early return in the source — check the
hard-coded 30-second timeout and complete with failure when
`now - start_time > 30`.  Returns the new state and the results emitted
during the call, in order. -/
def update_progress (st : State) (now : ℚ) : State × List TestResult :=
  if !st.test_active then (st, [])
  else
    let p :=
      match st.dwell_start_time with
      | some t0 =>
        if st.is_in_target && !(t0 == 0) then
          let elapsed := now - t0
          let progress := min (elapsed / st.dwell_time) 1
          let st1 : State := { st with progress_bar := py_int (progress * (st.progress_bar_max : ℚ)) }
          if 1 ≤ progress then
            let c := complete_test st1 true now
            (c.1, [c.2])
          else (st1, ([] : List TestResult))
        else (st, ([] : List TestResult))
      | none => (st, ([] : List TestResult))
    if py_truthy p.1.start_time && decide (30 < now - p.1.start_time.getD 0) then
      let c := complete_test p.1 false now
      (c.1, p.2 ++ [c.2])
    else p

/-- An event delivered to a running dwell test: a gaze/current-region update
(slot `update_gaze_point`) or a 10 ms timer tick (slot `update_progress`),
each stamped with the wall-clock time at which it runs. -/
inductive Event where
  | gaze (current_region : Option Region) (now : ℚ)
  | tick (now : ℚ)

/-- Deliver one event to the dwell test. -/
def step (st : State) (ev : Event) : State × List TestResult :=
  match ev with
  | .gaze r now => (update_gaze_point st r now, [])
  | .tick now => update_progress st now

/-- Deliver a list of events in order, collecting all emitted results. -/
def run (st : State) (evs : List Event) : State × List TestResult :=
  match evs with
  | [] => (st, [])
  | ev :: rest =>
    let p := step st ev
    let q := run p.1 rest
    (q.1, p.2 ++ q.2)

end RegionDwellTest

/-- Model of Python's `random.sample(population, k)` (used at
`interaction_test.py` line 196), made deterministic by an explicit stream of
random draws: `k` times, pick the element at index `rands.head % |pool|`
and remove it from the pool.  This realises exactly the documented contract
of `random.sample`: a sample of `k` elements chosen from distinct positions
of the population, without replacement. -/
def random_sample {α : Type} (rands : List Nat) (pool : List α) (k : Nat) : List α :=
  match k with
  | 0 => []
  | k' + 1 =>
    match pool with
    | [] => []
    | a :: as =>
      let j := rands.headD 0 % (a :: as).length
      (a :: as).getD j a :: random_sample rands.tail ((a :: as).eraseIdx j) k'

namespace TargetSelectionTest

/-- State of `TargetSelectionTest`, `interaction_test.py` lines 159-167. -/
structure State where
  regions : List Region
  num_targets : Nat
  current_target_index : Nat
  target_sequence : List Region
  selected_regions : List Region
  test_active : Bool
  start_time : Option ℚ
deriving DecidableEq

/-- `TargetSelectionTest.generate_target_sequence`, `interaction_test.py`
lines 194-196: `random.sample(self.regions, min(self.num_targets,
len(self.regions)))`. -/
def generate_target_sequence (regions : List Region) (num_targets : Nat)
    (rands : List Nat) : List Region :=
  random_sample rands regions (min num_targets regions.length)

/-- `TargetSelectionTest.__init__`, `interaction_test.py` lines 159-170:
the target sequence is drawn once, at construction. -/
def mk_test (regions : List Region) (num_targets : Nat) (rands : List Nat) : State :=
  { regions := regions
    num_targets := num_targets
    current_target_index := 0
    target_sequence := generate_target_sequence regions num_targets rands
    selected_regions := []
    test_active := false
    start_time := none }

/-- `TargetSelectionTest.start_test`, `interaction_test.py` lines 198-204:
activate, record the start time, reset the index and the selected list; the
target sequence is not regenerated. -/
def start_test (st : State) (now : ℚ) : State :=
  { st with test_active := true
            start_time := some now
            current_target_index := 0
            selected_regions := [] }

/-- `TargetSelectionTest.stop_test`, `interaction_test.py` lines 206-208. -/
def stop_test (st : State) : State :=
  { st with test_active := false }

/-- `TargetSelectionTest.complete_test`, `interaction_test.py` lines
238-256: stop, `accuracy = len(selected) / len(sequence)`,
`success = (accuracy == 1.0)`, and emit the `TestResult`. -/
def complete_test (st : State) (now : ℚ) : State × TestResult :=
  let st1 := stop_test st
  let total_duration := if py_truthy st.start_time then now - st.start_time.getD 0 else 0
  let accuracy : ℚ := (st.selected_regions.length : ℚ) / (st.target_sequence.length : ℚ)
  (st1,
   { test_type := TestType.TARGET_SELECTION
     success := decide (accuracy = 1)
     duration := total_duration
     accuracy := accuracy
     target_region := none
     actual_regions := st.selected_regions
     timestamp := now })

/-- `TargetSelectionTest.update_gaze_point`, `interaction_test.py` lines
219-236: no-op when inactive or past the end of the sequence; with a
non-`None` current region whose id equals the id of the expected target,
append the region and advance; complete when the index reaches the sequence
length; any mismatch or `None` region changes nothing. -/
def update_gaze_point (st : State) (current_region : Option Region) (now : ℚ) :
    State × List TestResult :=
  if !st.test_active || decide (st.target_sequence.length ≤ st.current_target_index) then
    (st, [])
  else
    match current_region with
    | none => (st, [])
    | some r =>
      match st.target_sequence[st.current_target_index]? with
      | none => (st, [])
      | some target =>
        if r.id == target.id then
          let st1 : State :=
            { st with selected_regions := st.selected_regions ++ [r]
                      current_target_index := st.current_target_index + 1 }
          if st1.target_sequence.length ≤ st1.current_target_index then
            let c := complete_test st1 now
            (c.1, [c.2])
          else (st1, [])
        else (st, [])

/-- Deliver a list of (current region, time) gaze events in order,
collecting all emitted results. -/
def run (st : State) (evs : List (Option Region × ℚ)) : State × List TestResult :=
  match evs with
  | [] => (st, [])
  | ev :: rest =>
    let p := update_gaze_point st ev.1 ev.2
    let q := run p.1 rest
    (q.1, p.2 ++ q.2)

end TargetSelectionTest

/-- The statistics dict built by `InteractionTestManager.get_test_statistics`
for a non-empty result log, `interaction_test.py` lines 294-300. -/
structure TestStatistics where
  total_tests : Nat
  success_rate : ℚ
  average_accuracy : ℚ
  average_duration : ℚ
  results : List TestResult
deriving DecidableEq

/-- `InteractionTestManager.get_test_statistics`, `interaction_test.py`
lines 284-300: an empty result log yields the empty dict `{}` (modelled as
`none`); otherwise the populated statistics dict (modelled as `some`). -/
def get_test_statistics (test_results : List TestResult) : Option TestStatistics :=
  match test_results with
  | [] => none
  | _ =>
    let total_tests := test_results.length
    let successful_tests := (test_results.filter (fun r => r.success)).length
    let avg_accuracy := (test_results.map (fun r => r.accuracy)).sum / (total_tests : ℚ)
    let avg_duration := (test_results.map (fun r => r.duration)).sum / (total_tests : ℚ)
    some
      { total_tests := total_tests
        success_rate := (successful_tests : ℚ) / (total_tests : ℚ)
        average_accuracy := avg_accuracy
        average_duration := avg_duration
        results := test_results }

/-! ## Claim theorems -/

/-- Claim C1 — evaluation of the code at a tick where both the dwell-success
condition and the 30-second timeout condition hold.  The dwell test was
started at time 1 with `dwell_time = 2`, the gaze entered the target at
time 29, and a timer tick runs at time 32 (so `elapsed = 3 ≥ 2` and
`now - start_time = 31 > 30`).  Success is indeed evaluated first, but
because `update_progress` does not return after `complete_test(True)`, the
timeout branch also fires: the single tick emits TWO `TestResult`s (a
success and then a failure) instead of exactly one. -/
theorem dwell_tick_both_conditions_two_results :
    (RegionDwellTest.update_progress
      (RegionDwellTest.update_gaze_point
        (RegionDwellTest.start_test
          (RegionDwellTest.mk_test ⟨0, "区域_1_1", 0, 0, 100, 100, 50, 50⟩ 2) 1)
        (some ⟨0, "区域_1_1", 0, 0, 100, 100, 50, 50⟩) 29)
      32).2 =
    [{ test_type := TestType.REGION_DWELL, success := true, duration := 31, accuracy := 1,
       target_region := some ⟨0, "区域_1_1", 0, 0, 100, 100, 50, 50⟩,
       actual_regions := [⟨0, "区域_1_1", 0, 0, 100, 100, 50, 50⟩], timestamp := 32 },
     { test_type := TestType.REGION_DWELL, success := false, duration := 31, accuracy := 0,
       target_region := some ⟨0, "区域_1_1", 0, 0, 100, 100, 50, 50⟩,
       actual_regions := [], timestamp := 32 }] := by
  norm_num [RegionDwellTest.update_progress, RegionDwellTest.update_gaze_point,
    RegionDwellTest.start_test, RegionDwellTest.mk_test, RegionDwellTest.complete_test,
    RegionDwellTest.stop_test, RegionDwellTest.in_target_check, py_truthy, py_int, min_def]

/-! ## Helper lemmas for the region grid -/

/-- A successful `find?` splits the list at the first match: everything
before the hit fails the predicate. -/
theorem find?_first_match {α : Type} (p : α → Bool) :
    ∀ (l : List α) (r : α), l.find? p = some r →
      ∃ l₁ l₂, l = l₁ ++ r :: l₂ ∧ p r = true ∧ ∀ a ∈ l₁, p a = false := by
  intro l
  induction l with
  | nil => intro r h; simp [List.find?] at h
  | cons a as ih =>
    intro r h
    by_cases hpa : p a = true
    · rw [List.find?_cons_of_pos _ hpa] at h
      obtain rfl : a = r := Option.some.inj h
      exact ⟨[], as, rfl, hpa, by simp⟩
    · rw [List.find?_cons_of_neg _ (by simpa using hpa)] at h
      obtain ⟨l₁, l₂, hsplit, hpr, hfail⟩ := ih r h
      refine ⟨a :: l₁, l₂, by simp [hsplit], hpr, ?_⟩
      intro b hb
      rcases List.mem_cons.mp hb with rfl | hb
      · simpa using hpa
      · exact hfail b hb

/-- Membership in the created grid: exactly the regions indexed by a row
below `rows` and a column below `cols`. -/
theorem mem_create_regions {W H : ℚ} {rows cols : Nat} {r : Region} :
    r ∈ RegionManager.create_regions W H rows cols ↔
      ∃ row, row < rows ∧ ∃ col, col < cols ∧
        r = { id := row * cols + col
              name := "区域_" ++ toString (row + 1) ++ "_" ++ toString (col + 1)
              x := (col : ℚ) * (W / (cols : ℚ))
              y := (row : ℚ) * (H / (rows : ℚ))
              width := W / (cols : ℚ)
              height := H / (rows : ℚ)
              center_x := (col : ℚ) * (W / (cols : ℚ)) + W / (cols : ℚ) / 2
              center_y := (row : ℚ) * (H / (rows : ℚ)) + H / (rows : ℚ) / 2 } := by
  simp only [RegionManager.create_regions, List.mem_flatMap, List.mem_map, List.mem_range]
  constructor
  · rintro ⟨row, hrow, col, hcol, hr⟩
    exact ⟨row, hrow, col, hcol, hr.symm⟩
  · rintro ⟨row, hrow, col, hcol, hr⟩
    exact ⟨row, hrow, col, hcol, hr.symm⟩

/-- A point of `[0, n·step]` lies in one of the `n` closed cells of width
`step`. -/
theorem exists_cell (x step : ℚ) :
    ∀ (n : Nat), 0 < n → 0 ≤ x → x ≤ (n : ℚ) * step →
      ∃ c : Nat, c < n ∧ (c : ℚ) * step ≤ x ∧ x ≤ ((c : ℚ) + 1) * step := by
  intro n
  induction n with
  | zero => intro h; exact absurd h (lt_irrefl 0)
  | succ m ih =>
    intro _ hx0 hxn
    by_cases hm : m = 0
    · subst hm
      refine ⟨0, Nat.zero_lt_one, by simpa using hx0, ?_⟩
      push_cast at hxn ⊢
      linarith
    · by_cases hx : x ≤ (m : ℚ) * step
      · obtain ⟨c, hc, h1, h2⟩ := ih (Nat.pos_of_ne_zero hm) hx0 hx
        exact ⟨c, Nat.lt_succ_of_lt hc, h1, h2⟩
      · push_neg at hx
        refine ⟨m, Nat.lt_succ_self m, le_of_lt hx, ?_⟩
        push_cast at hxn ⊢
        linarith

/-- Claim C3: for every grid built from positive screen size and grid
dimensions, `get_region_by_point` (1) returns some region for every point of
`[0, W] × [0, H]`, (2) returns `none` for every point outside that
rectangle, and (3) whenever it returns a region, that region is the first
one in row-major creation order whose closed rectangle contains the point
(every earlier region fails the containment test).  The source method only
reads state, so the call has no side effects; it is modelled here as a pure
function. -/
theorem region_grid_resolve (W H : ℚ) (rows cols : Nat)
    (hW : 0 < W) (hH : 0 < H) (hr : 0 < rows) (hc : 0 < cols) :
    (∀ x y, 0 ≤ x → x ≤ W → 0 ≤ y → y ≤ H →
        ∃ r, RegionManager.get_region_by_point
          (RegionManager.create_regions W H rows cols) x y = some r) ∧
    (∀ x y, x < 0 ∨ W < x ∨ y < 0 ∨ H < y →
        RegionManager.get_region_by_point
          (RegionManager.create_regions W H rows cols) x y = none) ∧
    (∀ x y r, RegionManager.get_region_by_point
          (RegionManager.create_regions W H rows cols) x y = some r →
        ∃ l₁ l₂, RegionManager.create_regions W H rows cols = l₁ ++ r :: l₂ ∧
          RegionManager.contains_point r x y = true ∧
          ∀ r' ∈ l₁, RegionManager.contains_point r' x y = false) := by
  have hcQ : (0 : ℚ) < (cols : ℚ) := by exact_mod_cast hc
  have hrQ : (0 : ℚ) < (rows : ℚ) := by exact_mod_cast hr
  have hrw : 0 < W / (cols : ℚ) := div_pos hW hcQ
  have hrh : 0 < H / (rows : ℚ) := div_pos hH hrQ
  have hWc : (cols : ℚ) * (W / (cols : ℚ)) = W := mul_div_cancel₀ W hcQ.ne'
  have hHr : (rows : ℚ) * (H / (rows : ℚ)) = H := mul_div_cancel₀ H hrQ.ne'
  refine ⟨?_, ?_, ?_⟩
  · intro x y hx0 hxW hy0 hyH
    obtain ⟨col, hcol, hcx1, hcx2⟩ :=
      exists_cell x (W / (cols : ℚ)) cols hc hx0 (by rw [hWc]; exact hxW)
    obtain ⟨row, hrow, hry1, hry2⟩ :=
      exists_cell y (H / (rows : ℚ)) rows hr hy0 (by rw [hHr]; exact hyH)
    rw [add_mul, one_mul] at hcx2 hry2
    refine Option.isSome_iff_exists.mp
      (List.find?_isSome.mpr
        ⟨_, mem_create_regions.mpr ⟨row, hrow, col, hcol, rfl⟩, ?_⟩)
    simp only [RegionManager.contains_point, decide_eq_true_eq]
    exact ⟨hcx1, hcx2, hry1, hry2⟩
  · intro x y hout
    refine List.find?_eq_none.mpr ?_
    intro r hmem
    obtain ⟨row, hrow, col, hcol, rfl⟩ := mem_create_regions.mp hmem
    simp only [RegionManager.contains_point, decide_eq_true_eq]
    have hcolQ : (col : ℚ) + 1 ≤ (cols : ℚ) := by exact_mod_cast hcol
    have hrowQ : (row : ℚ) + 1 ≤ (rows : ℚ) := by exact_mod_cast hrow
    have hx0 : (0 : ℚ) ≤ (col : ℚ) * (W / (cols : ℚ)) :=
      mul_nonneg (Nat.cast_nonneg col) hrw.le
    have hy0 : (0 : ℚ) ≤ (row : ℚ) * (H / (rows : ℚ)) :=
      mul_nonneg (Nat.cast_nonneg row) hrh.le
    have hxhi : (col : ℚ) * (W / (cols : ℚ)) + W / (cols : ℚ) ≤ W := by
      have := mul_le_mul_of_nonneg_right hcolQ hrw.le
      rw [hWc] at this
      linarith
    have hyhi : (row : ℚ) * (H / (rows : ℚ)) + H / (rows : ℚ) ≤ H := by
      have := mul_le_mul_of_nonneg_right hrowQ hrh.le
      rw [hHr] at this
      linarith
    rintro ⟨h1, h2, h3, h4⟩
    rcases hout with h | h | h | h <;> linarith
  · intro x y r h
    simp only [RegionManager.get_region_by_point] at h
    exact find?_first_match _ _ r h

/-- Witness for claim C3 at a concrete grid: a 3×3 grid on a 300×300
screen, with all hypotheses discharged. -/
theorem region_grid_resolve_witness :
    (0 : ℚ) < 300 ∧ (0 : ℚ) < 300 ∧ 0 < 3 ∧ 0 < 3 ∧
    ((∀ x y, 0 ≤ x → x ≤ 300 → 0 ≤ y → y ≤ 300 →
        ∃ r, RegionManager.get_region_by_point
          (RegionManager.create_regions 300 300 3 3) x y = some r) ∧
    (∀ x y, x < 0 ∨ 300 < x ∨ y < 0 ∨ 300 < y →
        RegionManager.get_region_by_point
          (RegionManager.create_regions 300 300 3 3) x y = none) ∧
    (∀ x y r, RegionManager.get_region_by_point
          (RegionManager.create_regions 300 300 3 3) x y = some r →
        ∃ l₁ l₂, RegionManager.create_regions 300 300 3 3 = l₁ ++ r :: l₂ ∧
          RegionManager.contains_point r x y = true ∧
          ∀ r' ∈ l₁, RegionManager.contains_point r' x y = false)) :=
  ⟨by norm_num, by norm_num, by norm_num, by norm_num,
   region_grid_resolve 300 300 3 3 (by norm_num) (by norm_num) (by norm_num) (by norm_num)⟩

/-! ## Concrete fixtures used by several theorems -/

/-- The top-left region of a 3×3 grid over a 300×300 screen. -/
def region_A : Region := ⟨0, "区域_1_1", 0, 0, 100, 100, 50, 50⟩

/-- The top-middle region of the same grid. -/
def region_B : Region := ⟨1, "区域_1_2", 100, 0, 100, 100, 150, 50⟩

/-- The top-right region of the same grid. -/
def region_C : Region := ⟨2, "区域_1_3", 200, 0, 100, 100, 250, 50⟩

/-- A running dwell test (`dwell_time = 2`, started at time 1) whose gaze is
currently inside the target since time 10. -/
def dwell_state_in_target : RegionDwellTest.State :=
  { target_region := region_A
    dwell_time := 2
    start_time := some 1
    dwell_start_time := some 10
    is_in_target := true
    test_active := true
    progress_bar := 0
    progress_bar_max := 200 }

/-- Claim C2: (1) while a test is running and the gaze is in the target,
an update whose current region fails the target check clears the dwell
timer, drops the in-target flag and resets the progress bar to zero;
(2) any result emitted by a tick with `success = true` requires the gaze to
be in target with a dwell timer `t0` whose current continuous span
`now - t0` has already reached `dwell_time` — accumulated time from earlier
spans plays no part; (3) the spec's concrete scenario: in target during
[10, 11.5] (1.5 s), out, in target again from 12 with ticks up to 13.9
(1.9 s, cumulative 3.4 s ≥ 2 s) completes nothing. -/
theorem dwell_reentry_resets :
    (∀ (st : RegionDwellTest.State) (r : Option Region) (now : ℚ),
        st.test_active = true → st.is_in_target = true →
        RegionDwellTest.in_target_check r st.target_region = false →
        RegionDwellTest.update_gaze_point st r now =
          { st with is_in_target := false, dwell_start_time := none, progress_bar := 0 }) ∧
    (∀ (st : RegionDwellTest.State) (now : ℚ) (res : TestResult),
        0 < st.dwell_time →
        res ∈ (RegionDwellTest.update_progress st now).2 → res.success = true →
        ∃ t0, st.dwell_start_time = some t0 ∧ st.is_in_target = true ∧
          st.dwell_time ≤ now - t0) ∧
    (((RegionDwellTest.run
        (RegionDwellTest.start_test (RegionDwellTest.mk_test region_A 2) 10)
        [.gaze (some region_A) 10, .tick (21/2), .gaze none (23/2),
         .gaze (some region_A) 12, .tick (129/10), .tick (139/10)]).2 = []) ∧
      ((23 : ℚ)/2 - 10) + ((139 : ℚ)/10 - 12) ≥ 2) := by
  refine ⟨?_, ?_, ?_, by norm_num⟩
  · intro st r now hact hin hcheck
    simp [RegionDwellTest.update_gaze_point, hact, hin, hcheck]
  · intro st now res hdwell hmem hsucc
    unfold RegionDwellTest.update_progress at hmem
    by_cases hact : st.test_active
    · simp only [hact, Bool.not_true, Bool.false_eq_true, if_false, ite_false] at hmem
      rcases hds : st.dwell_start_time with _ | t0 <;> simp only [hds] at hmem
      · split_ifs at hmem with h
        · simp only [List.nil_append, List.mem_singleton] at hmem
          subst hmem
          simp [RegionDwellTest.complete_test] at hsucc
        · simp at hmem
      · split_ifs at hmem with h1 h2 h3 h3
        · simp only [List.mem_append, List.mem_singleton] at hmem
          rcases hmem with hmem | hmem <;> subst hmem
          · refine ⟨t0, rfl, ?_, ?_⟩
            · exact (Bool.and_eq_true _ _ ▸ h1).1
            · have hmin : (1 : ℚ) ≤ min ((now - t0) / st.dwell_time) 1 := h2
              have := (le_min_iff.mp hmin).1
              rw [le_div_iff₀ hdwell] at this
              linarith
          · simp [RegionDwellTest.complete_test] at hsucc
        · simp only [List.mem_singleton] at hmem
          subst hmem
          refine ⟨t0, rfl, ?_, ?_⟩
          · exact (Bool.and_eq_true _ _ ▸ h1).1
          · have hmin : (1 : ℚ) ≤ min ((now - t0) / st.dwell_time) 1 := h2
            have := (le_min_iff.mp hmin).1
            rw [le_div_iff₀ hdwell] at this
            linarith
        · simp only [List.nil_append, List.mem_singleton] at hmem
          subst hmem
          simp [RegionDwellTest.complete_test] at hsucc
        · simp at hmem
        · simp only [List.nil_append, List.mem_singleton] at hmem
          subst hmem
          simp [RegionDwellTest.complete_test] at hsucc
        · simp at hmem
    · simp [hact] at hmem
  · norm_num [RegionDwellTest.run, RegionDwellTest.step, RegionDwellTest.update_gaze_point,
      RegionDwellTest.update_progress, RegionDwellTest.start_test, RegionDwellTest.mk_test,
      RegionDwellTest.complete_test, RegionDwellTest.stop_test, RegionDwellTest.in_target_check,
      region_A, py_truthy, py_int, min_def]

/-- Witness for claim C2: part (1) applied to a concrete running in-target
state receiving an out-of-target update, and part (2) applied to the
concrete success result emitted by a tick at time 25/2 after entering the
target at time 10. -/
theorem dwell_reentry_resets_witness :
    (RegionDwellTest.update_gaze_point dwell_state_in_target none 5 =
      { dwell_state_in_target with
          is_in_target := false, dwell_start_time := none, progress_bar := 0 }) ∧
    (∃ t0, dwell_state_in_target.dwell_start_time = some t0 ∧
      dwell_state_in_target.is_in_target = true ∧
      dwell_state_in_target.dwell_time ≤ (25/2 : ℚ) - t0) :=
  ⟨dwell_reentry_resets.1 dwell_state_in_target none 5 rfl rfl rfl,
   dwell_reentry_resets.2.1 dwell_state_in_target (25/2)
     ⟨TestType.REGION_DWELL, true, 23/2, 1, some region_A, [region_A], 25/2⟩
     (by norm_num [dwell_state_in_target])
     (by norm_num [RegionDwellTest.update_progress, RegionDwellTest.complete_test,
        RegionDwellTest.stop_test, dwell_state_in_target, region_A,
        py_truthy, py_int, min_def])
     rfl⟩

/-- Claim C6: a dwell test with `dwell_time = 2` started at `t_s`.
(1) After entering the target at `t_e`, a tick at `T` with a continuous
in-target span `T - t_e ≥ 2` completes the test: the first result emitted
by that tick is a success with `accuracy = 1`,
`actual_regions = [target]`, `target_region = target` and
`duration = T - t_s`.  (2) After entering at `t_e` and leaving at `t_x`
before 2 seconds elapsed, with no re-entry, a tick at `T` past the
30-second timeout emits exactly one failure result with `accuracy = 0`,
`actual_regions = []`, `target_region = target`, `duration = T - t_s`. -/
theorem dwell_scenario_outcomes :
    (∀ (target : Region) (t_s t_e T : ℚ),
        t_s ≠ 0 → t_e ≠ 0 → 2 ≤ T - t_e →
        ((RegionDwellTest.run
            (RegionDwellTest.start_test (RegionDwellTest.mk_test target 2) t_s)
            [.gaze (some target) t_e, .tick T]).2).head? =
          some { test_type := TestType.REGION_DWELL, success := true, duration := T - t_s,
                 accuracy := 1, target_region := some target,
                 actual_regions := [target], timestamp := T }) ∧
    (∀ (target : Region) (t_s t_e t_x T : ℚ),
        t_s ≠ 0 → t_x - t_e < 2 → 30 < T - t_s →
        (RegionDwellTest.run
            (RegionDwellTest.start_test (RegionDwellTest.mk_test target 2) t_s)
            [.gaze (some target) t_e, .gaze none t_x, .tick T]).2 =
          [{ test_type := TestType.REGION_DWELL, success := false, duration := T - t_s,
             accuracy := 0, target_region := some target,
             actual_regions := [], timestamp := T }]) := by
  constructor
  · intro target t_s t_e T hs he hT
    have he' : (t_e == 0) = false := by simp [he]
    have hs' : (t_s == 0) = false := by simp [hs]
    have hprog : min ((T - t_e) / 2) 1 = (1 : ℚ) :=
      min_eq_right ((one_le_div (by norm_num : (0:ℚ) < 2)).mpr (by linarith))
    by_cases h30 : (30 : ℚ) < T - t_s <;>
      simp [RegionDwellTest.run, RegionDwellTest.step, RegionDwellTest.update_gaze_point,
        RegionDwellTest.update_progress, RegionDwellTest.start_test, RegionDwellTest.mk_test,
        RegionDwellTest.complete_test, RegionDwellTest.stop_test,
        RegionDwellTest.in_target_check, py_truthy, he', hs', hprog, h30]
  · intro target t_s t_e t_x T hs hx h30
    have hs' : (t_s == 0) = false := by simp [hs]
    simp [RegionDwellTest.run, RegionDwellTest.step, RegionDwellTest.update_gaze_point,
      RegionDwellTest.update_progress, RegionDwellTest.start_test, RegionDwellTest.mk_test,
      RegionDwellTest.complete_test, RegionDwellTest.stop_test,
      RegionDwellTest.in_target_check, py_truthy, hs', h30]

/-- Witness for claim C6: the success scenario at
`t_s = 1, t_e = 2, T = 5` and the timeout scenario at
`t_s = 1, t_e = 2, t_x = 3, T = 32`. -/
theorem dwell_scenario_outcomes_witness :
    (((RegionDwellTest.run
        (RegionDwellTest.start_test (RegionDwellTest.mk_test region_A 2) 1)
        [.gaze (some region_A) 2, .tick 5]).2).head? =
      some { test_type := TestType.REGION_DWELL, success := true, duration := 4,
             accuracy := 1, target_region := some region_A,
             actual_regions := [region_A], timestamp := 5 }) ∧
    ((RegionDwellTest.run
        (RegionDwellTest.start_test (RegionDwellTest.mk_test region_A 2) 1)
        [.gaze (some region_A) 2, .gaze none 3, .tick 32]).2 =
      [{ test_type := TestType.REGION_DWELL, success := false, duration := 31,
         accuracy := 0, target_region := some region_A,
         actual_regions := [], timestamp := 32 }]) :=
  ⟨by
    have h := dwell_scenario_outcomes.1 region_A 1 2 5 (by norm_num) (by norm_num) (by norm_num)
    norm_num at h
    exact h,
   by
    have h := dwell_scenario_outcomes.2 region_A 1 2 3 32 (by norm_num) (by norm_num) (by norm_num)
    norm_num at h
    exact h⟩

/-- Claim C10: delivering a gaze sample or a tick while a test is not
active leaves the state unchanged and emits nothing; for the selection test
the same holds once the full sequence has been matched
(`current_target_index ≥ len(target_sequence)`). -/
theorem inactive_updates_noop :
    (∀ (st : RegionDwellTest.State) (r : Option Region) (now : ℚ),
        st.test_active = false →
        RegionDwellTest.update_gaze_point st r now = st) ∧
    (∀ (st : RegionDwellTest.State) (now : ℚ),
        st.test_active = false →
        RegionDwellTest.update_progress st now = (st, [])) ∧
    (∀ (st : TargetSelectionTest.State) (r : Option Region) (now : ℚ),
        st.test_active = false ∨ st.target_sequence.length ≤ st.current_target_index →
        TargetSelectionTest.update_gaze_point st r now = (st, [])) := by
  refine ⟨?_, ?_, ?_⟩
  · intro st r now h
    simp [RegionDwellTest.update_gaze_point, h]
  · intro st now h
    simp [RegionDwellTest.update_progress, h]
  · intro st r now h
    rcases h with h | h <;> simp [TargetSelectionTest.update_gaze_point, h]

/-- Witness for claim C10: freshly constructed (never started) dwell and
selection tests ignore gaze samples and ticks. -/
theorem inactive_updates_noop_witness :
    (RegionDwellTest.update_gaze_point (RegionDwellTest.mk_test region_A 2)
        (some region_A) 3 = RegionDwellTest.mk_test region_A 2) ∧
    (RegionDwellTest.update_progress (RegionDwellTest.mk_test region_A 2) 3 =
        (RegionDwellTest.mk_test region_A 2, [])) ∧
    (TargetSelectionTest.update_gaze_point
        (TargetSelectionTest.mk_test [region_A] 1 [0]) (some region_A) 3 =
        (TargetSelectionTest.mk_test [region_A] 1 [0], [])) :=
  ⟨inactive_updates_noop.1 _ _ _ rfl,
   inactive_updates_noop.2.1 _ _ rfl,
   inactive_updates_noop.2.2 _ _ _ (Or.inl rfl)⟩

/-- Claim C5: while a selection test is running, (1) a region matching the
id of `sequence[currentIndex]` is appended to the selected list and the
index advances, completing the test exactly when the index reaches the
sequence length; (2) a non-matching region changes nothing; (3) a `None`
region changes nothing; (4) completion reports
`accuracy = |selected| / |sequence|` and `success ↔ accuracy = 1`, and
deactivates the test; (5) concretely, stream `[R1, R2, R3]` against target
sequence `[R1, R2, R3]` emits exactly one success with accuracy 1 and
`visitedRegions = [R1, R2, R3]`, while a stream beginning with `R2`
advances nothing. -/
theorem sequence_step_semantics :
    (∀ (st : TargetSelectionTest.State) (r : Region) (now : ℚ) (tgt : Region),
        st.test_active = true →
        st.target_sequence[st.current_target_index]? = some tgt →
        r.id = tgt.id →
        TargetSelectionTest.update_gaze_point st (some r) now =
          (if st.target_sequence.length ≤ st.current_target_index + 1 then
            ((TargetSelectionTest.complete_test
                { st with selected_regions := st.selected_regions ++ [r]
                          current_target_index := st.current_target_index + 1 } now).1,
             [(TargetSelectionTest.complete_test
                { st with selected_regions := st.selected_regions ++ [r]
                          current_target_index := st.current_target_index + 1 } now).2])
          else
            ({ st with selected_regions := st.selected_regions ++ [r]
                       current_target_index := st.current_target_index + 1 }, []))) ∧
    (∀ (st : TargetSelectionTest.State) (r : Region) (now : ℚ) (tgt : Region),
        st.test_active = true →
        st.target_sequence[st.current_target_index]? = some tgt →
        r.id ≠ tgt.id →
        TargetSelectionTest.update_gaze_point st (some r) now = (st, [])) ∧
    (∀ (st : TargetSelectionTest.State) (now : ℚ),
        TargetSelectionTest.update_gaze_point st none now = (st, [])) ∧
    (∀ (st : TargetSelectionTest.State) (now : ℚ),
        (TargetSelectionTest.complete_test st now).2.accuracy =
          (st.selected_regions.length : ℚ) / (st.target_sequence.length : ℚ) ∧
        ((TargetSelectionTest.complete_test st now).2.success = true ↔
          (st.selected_regions.length : ℚ) / (st.target_sequence.length : ℚ) = 1) ∧
        (TargetSelectionTest.complete_test st now).1.test_active = false) ∧
    ((TargetSelectionTest.run
        (TargetSelectionTest.start_test
          (TargetSelectionTest.mk_test [region_A, region_B, region_C] 3 [0, 0, 0]) 1)
        [(some region_A, 2), (some region_B, 3), (some region_C, 4)]).2 =
      [{ test_type := TestType.TARGET_SELECTION, success := true, duration := 3,
         accuracy := 1, target_region := none,
         actual_regions := [region_A, region_B, region_C], timestamp := 4 }]) ∧
    ((TargetSelectionTest.run
        (TargetSelectionTest.start_test
          (TargetSelectionTest.mk_test [region_A, region_B, region_C] 3 [0, 0, 0]) 1)
        [(some region_B, 2)]).1.current_target_index = 0 ∧
     (TargetSelectionTest.run
        (TargetSelectionTest.start_test
          (TargetSelectionTest.mk_test [region_A, region_B, region_C] 3 [0, 0, 0]) 1)
        [(some region_B, 2)]).2 = []) := by
  refine ⟨?_, ?_, ?_, ?_, ?_, ?_⟩
  · intro st r now tgt hact hidx hmatch
    have hlt : st.current_target_index < st.target_sequence.length :=
      (List.getElem?_eq_some.mp hidx).1
    simp [TargetSelectionTest.update_gaze_point, hact, hidx, hmatch, Nat.not_le.mpr hlt]
  · intro st r now tgt hact hidx hmiss
    have hlt : st.current_target_index < st.target_sequence.length :=
      (List.getElem?_eq_some.mp hidx).1
    simp [TargetSelectionTest.update_gaze_point, hact, hidx, hmiss, Nat.not_le.mpr hlt]
  · intro st now
    by_cases h : (!st.test_active ||
        decide (st.target_sequence.length ≤ st.current_target_index)) = true <;>
      simp [TargetSelectionTest.update_gaze_point, h]
  · intro st now
    refine ⟨rfl, ?_, rfl⟩
    simp [TargetSelectionTest.complete_test]
  · norm_num [TargetSelectionTest.run, TargetSelectionTest.update_gaze_point,
      TargetSelectionTest.start_test, TargetSelectionTest.mk_test,
      TargetSelectionTest.generate_target_sequence, random_sample,
      TargetSelectionTest.complete_test, TargetSelectionTest.stop_test,
      py_truthy, region_A, region_B, region_C]
  · norm_num [TargetSelectionTest.run, TargetSelectionTest.update_gaze_point,
      TargetSelectionTest.start_test, TargetSelectionTest.mk_test,
      TargetSelectionTest.generate_target_sequence, random_sample,
      TargetSelectionTest.complete_test, TargetSelectionTest.stop_test,
      py_truthy, region_A, region_B, region_C]

/-- A freshly started selection test over `[region_A, region_B, region_C]`
whose drawn target sequence is `[region_A, region_B, region_C]`. -/
def seq_state_started : TargetSelectionTest.State :=
  TargetSelectionTest.start_test
    (TargetSelectionTest.mk_test [region_A, region_B, region_C] 3 [0, 0, 0]) 1

/-- Witness for claim C5: on the concrete started test, delivering the
expected first region advances the index and records it, and delivering a
wrong region changes nothing. -/
theorem sequence_step_semantics_witness :
    (TargetSelectionTest.update_gaze_point seq_state_started (some region_A) 2 =
      ({ seq_state_started with
          selected_regions := [region_A], current_target_index := 1 }, [])) ∧
    (TargetSelectionTest.update_gaze_point seq_state_started (some region_B) 2 =
      (seq_state_started, [])) := by
  constructor
  · have h := sequence_step_semantics.1 seq_state_started region_A 2 region_A rfl rfl rfl
    rw [h]
    norm_num [seq_state_started, TargetSelectionTest.start_test, TargetSelectionTest.mk_test,
      TargetSelectionTest.generate_target_sequence, random_sample, region_A, region_B, region_C]
  · exact sequence_step_semantics.2.1 seq_state_started region_B 2 region_A rfl rfl (by decide)

/-! ## Properties of the `random.sample` model -/

/-- `getD` at an in-bounds index is plain indexing. -/
theorem list_getD_eq_getElem {α : Type} (l : List α) (d : α) (i : Nat)
    (h : i < l.length) : l.getD i d = l[i] := by
  rw [List.getD_eq_getElem?_getD, List.getElem?_eq_getElem h]
  rfl

/-- `random_sample` returns exactly `k` elements whenever `k` does not
exceed the population size. -/
theorem random_sample_length {α : Type} :
    ∀ (k : Nat) (rands : List Nat) (pool : List α),
      k ≤ pool.length → (random_sample rands pool k).length = k := by
  intro k
  induction k with
  | zero => intro rands pool _; simp [random_sample]
  | succ k' ih =>
    intro rands pool h
    cases pool with
    | nil => simp at h
    | cons a as =>
      have hj : rands.headD 0 % (a :: as).length < (a :: as).length :=
        Nat.mod_lt _ (by simp)
      have hlen := List.length_eraseIdx_of_lt hj
      show ((a :: as).getD (rands.headD 0 % (a :: as).length) a ::
        random_sample rands.tail
          ((a :: as).eraseIdx (rands.headD 0 % (a :: as).length)) k').length = k' + 1
      rw [List.length_cons, ih rands.tail _ ?_]
      rw [hlen]
      simp only [List.length_cons] at h ⊢
      omega

/-- Every element returned by `random_sample` comes from the population. -/
theorem random_sample_subset {α : Type} :
    ∀ (k : Nat) (rands : List Nat) (pool : List α) (x : α),
      x ∈ random_sample rands pool k → x ∈ pool := by
  intro k
  induction k with
  | zero => intro rands pool x hx; simp [random_sample] at hx
  | succ k' ih =>
    intro rands pool x hx
    cases pool with
    | nil => simp [random_sample] at hx
    | cons a as =>
      have hj : rands.headD 0 % (a :: as).length < (a :: as).length :=
        Nat.mod_lt _ (by simp)
      replace hx : x = (a :: as).getD (rands.headD 0 % (a :: as).length) a ∨
          x ∈ random_sample rands.tail
            ((a :: as).eraseIdx (rands.headD 0 % (a :: as).length)) k' :=
        List.mem_cons.mp hx
      rcases hx with hx | hx
      · rw [hx, list_getD_eq_getElem _ _ _ hj]
        exact List.getElem_mem hj
      · exact (List.eraseIdx_sublist (a :: as) _).subset (ih rands.tail _ x hx)

/-- In a duplicate-free list, the element at index `j` does not survive the
removal of index `j`. -/
theorem getElem_not_mem_eraseIdx {α : Type} :
    ∀ (l : List α) (j : Nat) (hj : j < l.length), l.Nodup →
      l[j] ∉ l.eraseIdx j := by
  intro l
  induction l with
  | nil => intro j hj; simp at hj
  | cons a as ih =>
    intro j hj hnd
    cases j with
    | zero => simpa using (List.nodup_cons.mp hnd).1
    | succ j' =>
      have hj' : j' < as.length := by simpa using hj
      rw [List.eraseIdx_cons_succ, List.getElem_cons_succ]
      simp only [List.mem_cons, not_or]
      refine ⟨?_, ih j' hj' (List.nodup_cons.mp hnd).2⟩
      intro hcontra
      exact (List.nodup_cons.mp hnd).1 (hcontra ▸ List.getElem_mem hj')

/-- `random_sample` never repeats an element of a duplicate-free
population: the draws are without replacement. -/
theorem random_sample_nodup {α : Type} :
    ∀ (k : Nat) (rands : List Nat) (pool : List α),
      pool.Nodup → (random_sample rands pool k).Nodup := by
  intro k
  induction k with
  | zero => intro rands pool _; simp [random_sample]
  | succ k' ih =>
    intro rands pool hnd
    cases pool with
    | nil => simp [random_sample]
    | cons a as =>
      have hj : rands.headD 0 % (a :: as).length < (a :: as).length :=
        Nat.mod_lt _ (by simp)
      show ((a :: as).getD (rands.headD 0 % (a :: as).length) a ::
        random_sample rands.tail
          ((a :: as).eraseIdx (rands.headD 0 % (a :: as).length)) k').Nodup
      refine List.nodup_cons.mpr ⟨?_, ih rands.tail _ (hnd.sublist (List.eraseIdx_sublist _ _))⟩
      intro hmem
      have hmem' := random_sample_subset k' rands.tail _ _ hmem
      rw [list_getD_eq_getElem _ _ _ hj] at hmem'
      exact getElem_not_mem_eraseIdx (a :: as) _ hj hnd hmem'

/-- Claim C8: the target sequence drawn at construction has exactly
`min(num_targets, |regions|)` elements (an oversized request is silently
clamped), is duplicate-free whenever the candidate list is, and consists of
candidate regions only; `start_test` resets the index and the selected list
but leaves the target sequence unchanged. -/
theorem sequence_generation_clamped :
    (∀ (regions : List Region) (num_targets : Nat) (rands : List Nat),
        (TargetSelectionTest.mk_test regions num_targets rands).target_sequence.length =
          min num_targets regions.length) ∧
    (∀ (regions : List Region) (num_targets : Nat) (rands : List Nat),
        regions.Nodup →
        (TargetSelectionTest.mk_test regions num_targets rands).target_sequence.Nodup) ∧
    (∀ (regions : List Region) (num_targets : Nat) (rands : List Nat) (r : Region),
        r ∈ (TargetSelectionTest.mk_test regions num_targets rands).target_sequence →
        r ∈ regions) ∧
    (∀ (st : TargetSelectionTest.State) (now : ℚ),
        (TargetSelectionTest.start_test st now).target_sequence = st.target_sequence ∧
        (TargetSelectionTest.start_test st now).current_target_index = 0 ∧
        (TargetSelectionTest.start_test st now).selected_regions = []) := by
  refine ⟨?_, ?_, ?_, ?_⟩
  · intro regions num_targets rands
    exact random_sample_length _ rands regions (Nat.min_le_right _ _)
  · intro regions num_targets rands hnd
    exact random_sample_nodup _ rands regions hnd
  · intro regions num_targets rands r hr
    exact random_sample_subset _ rands regions r hr
  · intro st now
    exact ⟨rfl, rfl, rfl⟩

/-- Witness for claim C8: a request for 5 targets out of 2 candidate
regions is clamped to 2; the drawn sequence is duplicate-free and drawn
from the candidates; `start_test` keeps it. -/
theorem sequence_generation_clamped_witness :
    ((TargetSelectionTest.mk_test [region_A, region_B] 5 [1, 0]).target_sequence.length = 2) ∧
    ((TargetSelectionTest.mk_test [region_A, region_B] 5 [1, 0]).target_sequence.Nodup) ∧
    (region_B ∈ ([region_A, region_B] : List Region)) ∧
    ((TargetSelectionTest.start_test
        (TargetSelectionTest.mk_test [region_A, region_B] 5 [1, 0]) 7).target_sequence =
      (TargetSelectionTest.mk_test [region_A, region_B] 5 [1, 0]).target_sequence) := by
  refine ⟨(sequence_generation_clamped.1 [region_A, region_B] 5 [1, 0]).trans (by norm_num),
    sequence_generation_clamped.2.1 [region_A, region_B] 5 [1, 0] ?_,
    sequence_generation_clamped.2.2.1 [region_A, region_B] 5 [1, 0] region_B ?_,
    (sequence_generation_clamped.2.2.2 _ 7).1⟩
  · simp [List.nodup_cons, region_A, region_B]
  · norm_num [TargetSelectionTest.mk_test, TargetSelectionTest.generate_target_sequence,
      random_sample]


/-! ## The selection-test invariant -/

/-- Invariant of a selection test: the selected list is exactly as long as
the current index, the index never passes the end of the target sequence,
and the selected list is an id-wise prefix of the target sequence. -/
def sel_inv (st : TargetSelectionTest.State) : Prop :=
  st.selected_regions.length = st.current_target_index ∧
  st.current_target_index ≤ st.target_sequence.length ∧
  ∀ i, i < st.selected_regions.length →
    ∃ a b, st.selected_regions[i]? = some a ∧
      st.target_sequence[i]? = some b ∧ a.id = b.id

/-- One gaze delivery preserves `sel_inv`, and every result it emits has
accuracy in `[0, 1]`. -/
theorem sel_step_inv (st : TargetSelectionTest.State) (r : Option Region) (now : ℚ)
    (h : sel_inv st) :
    sel_inv (TargetSelectionTest.update_gaze_point st r now).1 ∧
    ∀ res ∈ (TargetSelectionTest.update_gaze_point st r now).2,
      0 ≤ res.accuracy ∧ res.accuracy ≤ 1 := by
  obtain ⟨hlen, hle, hids⟩ := h
  cases hact : st.test_active with
  | false =>
    have heq : TargetSelectionTest.update_gaze_point st r now = (st, []) := by
      simp [TargetSelectionTest.update_gaze_point, hact]
    rw [heq]
    exact ⟨⟨hlen, hle, hids⟩, by simp⟩
  | true =>
    by_cases hidxbig : st.target_sequence.length ≤ st.current_target_index
    · have heq : TargetSelectionTest.update_gaze_point st r now = (st, []) := by
        simp [TargetSelectionTest.update_gaze_point, hidxbig]
      rw [heq]
      exact ⟨⟨hlen, hle, hids⟩, by simp⟩
    · have hlt : st.current_target_index < st.target_sequence.length :=
        Nat.lt_of_not_le hidxbig
      rcases r with _ | rr
      · have heq : TargetSelectionTest.update_gaze_point st none now = (st, []) := by
          simp [TargetSelectionTest.update_gaze_point, hact, hidxbig]
        rw [heq]
        exact ⟨⟨hlen, hle, hids⟩, by simp⟩
      · have hidx : st.target_sequence[st.current_target_index]? =
            some st.target_sequence[st.current_target_index] :=
          List.getElem?_eq_getElem hlt
        by_cases hmatch : rr.id = st.target_sequence[st.current_target_index].id
        · have hinv1 : sel_inv
              { st with selected_regions := st.selected_regions ++ [rr]
                        current_target_index := st.current_target_index + 1 } := by
            refine ⟨?_, ?_, ?_⟩
            · show (st.selected_regions ++ [rr]).length = st.current_target_index + 1
              simp [hlen]
            · show st.current_target_index + 1 ≤ st.target_sequence.length
              omega
            · show ∀ i, i < (st.selected_regions ++ [rr]).length →
                ∃ a b, (st.selected_regions ++ [rr])[i]? = some a ∧
                  st.target_sequence[i]? = some b ∧ a.id = b.id
              intro i hi
              simp only [List.length_append, List.length_cons, List.length_nil] at hi
              by_cases hlt2 : i < st.selected_regions.length
              · obtain ⟨a, b, ha, hb, hab⟩ := hids i hlt2
                exact ⟨a, b, by rw [List.getElem?_append_left hlt2]; exact ha, hb, hab⟩
              · have hieq : i = st.selected_regions.length := by omega
                subst hieq
                refine ⟨rr, st.target_sequence[st.current_target_index], ?_, ?_, hmatch⟩
                · rw [List.getElem?_append_right (le_refl _)]
                  simp
                · rw [hlen]
                  exact hidx
          by_cases hdone : st.target_sequence.length ≤ st.current_target_index + 1
          · have heq : TargetSelectionTest.update_gaze_point st (some rr) now =
                ((TargetSelectionTest.complete_test
                    { st with selected_regions := st.selected_regions ++ [rr]
                              current_target_index := st.current_target_index + 1 } now).1,
                 [(TargetSelectionTest.complete_test
                    { st with selected_regions := st.selected_regions ++ [rr]
                              current_target_index := st.current_target_index + 1 } now).2]) := by
              simp [TargetSelectionTest.update_gaze_point, hact, hidxbig, hidx, hmatch, hdone]
            rw [heq]
            refine ⟨⟨hinv1.1, hinv1.2.1, hinv1.2.2⟩, ?_⟩
            intro res hres
            simp only [List.mem_singleton] at hres
            subst hres
            show 0 ≤ ((st.selected_regions ++ [rr]).length : ℚ) /
                (st.target_sequence.length : ℚ) ∧
              ((st.selected_regions ++ [rr]).length : ℚ) /
                (st.target_sequence.length : ℚ) ≤ 1
            have hlen1 : (st.selected_regions ++ [rr]).length ≤ st.target_sequence.length := by
              simp only [List.length_append, List.length_cons, List.length_nil]
              omega
            have hpos : (0 : ℚ) < (st.target_sequence.length : ℚ) := by
              exact_mod_cast Nat.pos_of_ne_zero (by omega)
            constructor
            · exact div_nonneg (by positivity) (by positivity)
            · exact (div_le_one hpos).mpr (by exact_mod_cast hlen1)
          · have heq : TargetSelectionTest.update_gaze_point st (some rr) now =
                ({ st with selected_regions := st.selected_regions ++ [rr]
                           current_target_index := st.current_target_index + 1 }, []) := by
              simp [TargetSelectionTest.update_gaze_point, hact, hidxbig, hidx, hmatch, hdone]
            rw [heq]
            exact ⟨hinv1, by simp⟩
        · have heq : TargetSelectionTest.update_gaze_point st (some rr) now = (st, []) := by
            simp [TargetSelectionTest.update_gaze_point, hact, hidxbig, hidx, hmatch]
          rw [heq]
          exact ⟨⟨hlen, hle, hids⟩, by simp⟩

/-- Delivering any event stream preserves `sel_inv`, and every emitted
result has accuracy in `[0, 1]`. -/
theorem sel_run_inv :
    ∀ (evs : List (Option Region × ℚ)) (st : TargetSelectionTest.State),
      sel_inv st →
      sel_inv (TargetSelectionTest.run st evs).1 ∧
      ∀ res ∈ (TargetSelectionTest.run st evs).2,
        0 ≤ res.accuracy ∧ res.accuracy ≤ 1 := by
  intro evs
  induction evs with
  | nil =>
    intro st h
    exact ⟨h, by simp [TargetSelectionTest.run]⟩
  | cons ev rest ih =>
    intro st h
    have hstep := sel_step_inv st ev.1 ev.2 h
    have hrest := ih _ hstep.1
    constructor
    · show sel_inv (TargetSelectionTest.run
        (TargetSelectionTest.update_gaze_point st ev.1 ev.2).1 rest).1
      exact hrest.1
    · intro res hres
      replace hres : res ∈ (TargetSelectionTest.update_gaze_point st ev.1 ev.2).2 ++
          (TargetSelectionTest.run
            (TargetSelectionTest.update_gaze_point st ev.1 ev.2).1 rest).2 := hres
      rcases List.mem_append.mp hres with hres | hres
      · exact hstep.2 res hres
      · exact hrest.2 res hres

/-- Claim C9: after `start_test` and any stream of delivered gaze events,
the selected list always has length `current_target_index` and is an
id-wise prefix of the target sequence, and every result reported at a
completion has accuracy in `[0, 1]`. -/
theorem sequence_invariant (regions : List Region) (num_targets : Nat)
    (rands : List Nat) (t0 : ℚ) (evs : List (Option Region × ℚ)) :
    sel_inv (TargetSelectionTest.run
      (TargetSelectionTest.start_test
        (TargetSelectionTest.mk_test regions num_targets rands) t0) evs).1 ∧
    ∀ res ∈ (TargetSelectionTest.run
      (TargetSelectionTest.start_test
        (TargetSelectionTest.mk_test regions num_targets rands) t0) evs).2,
      0 ≤ res.accuracy ∧ res.accuracy ≤ 1 :=
  sel_run_inv evs _ ⟨rfl, Nat.zero_le _,
    by intro i hi; simp [TargetSelectionTest.start_test] at hi⟩

/-- Witness for claim C9: the invariant and the accuracy bounds at a
concrete completed run (the full correct stream over three regions, whose
single emitted result has accuracy 1). -/
theorem sequence_invariant_witness :
    (sel_inv (TargetSelectionTest.run
      (TargetSelectionTest.start_test
        (TargetSelectionTest.mk_test [region_A, region_B, region_C] 3 [0, 0, 0]) 1)
      [(some region_A, 2), (some region_B, 3), (some region_C, 4)]).1 ∧
    ∀ res ∈ (TargetSelectionTest.run
      (TargetSelectionTest.start_test
        (TargetSelectionTest.mk_test [region_A, region_B, region_C] 3 [0, 0, 0]) 1)
      [(some region_A, 2), (some region_B, 3), (some region_C, 4)]).2,
      0 ≤ res.accuracy ∧ res.accuracy ≤ 1) :=
  sequence_invariant [region_A, region_B, region_C] 3 [0, 0, 0] 1
    [(some region_A, 2), (some region_B, 3), (some region_C, 4)]

/-! ## Region-tracking semantics (grid widget + region manager) -/

/-- A widget whose manager currently tracks `region_A`, with one history
entry, and whose last stored sample is non-null. -/
def widget_state_tracking : RegionGridWidget.State :=
  { region_manager :=
      { regions := [region_A, region_B]
        current_region := some region_A
        region_history := [⟨some region_A, 1⟩] }
    current_gaze_point := some ⟨50, 50, 1, 1⟩ }

/-- Counterexample to claim C4 as stated: a null sample does NOT resolve to
"no region".  On a tracker currently in `region_A` (a non-null region, so a
null resolution would differ by null-ness and the claim demands a
transition), delivering a null sample leaves the current region non-null
and appends nothing: the `if gaze_point:` guard in
`RegionGridWidget.update_gaze_point` skips the region update entirely. -/
theorem null_sample_counterexample :
    ¬ ((RegionGridWidget.update_gaze_point widget_state_tracking none 5).region_manager.current_region
          = none ∧
       (RegionGridWidget.update_gaze_point widget_state_tracking none 5).region_manager.region_history.length
          = widget_state_tracking.region_manager.region_history.length + 1) := by
  rintro ⟨h1, -⟩
  simp [RegionGridWidget.update_gaze_point, widget_state_tracking] at h1

/-- Row-major index encoding is injective below the column bound. -/
theorem row_major_inj {n r1 c1 r2 c2 : Nat} (h1 : c1 < n) (h2 : c2 < n)
    (h : r1 * n + c1 = r2 * n + c2) : r1 = r2 ∧ c1 = c2 := by
  rcases Nat.lt_trichotomy r1 r2 with hlt | heq | hgt
  · exfalso
    have hm : (r1 + 1) * n ≤ r2 * n := Nat.mul_le_mul_right n hlt
    rw [add_mul, one_mul] at hm
    linarith
  · subst heq
    exact ⟨rfl, Nat.add_left_cancel h⟩
  · exfalso
    have hm : (r2 + 1) * n ≤ r1 * n := Nat.mul_le_mul_right n hgt
    rw [add_mul, one_mul] at hm
    linarith

/-- Region ids are unique within one created grid: two grid regions with
the same id are the same region. -/
theorem create_regions_id_inj (W H : ℚ) (rows cols : Nat) :
    ∀ a ∈ RegionManager.create_regions W H rows cols,
      ∀ b ∈ RegionManager.create_regions W H rows cols,
        a.id = b.id → a = b := by
  intro a ha b hb hid
  obtain ⟨ra, hra, ca, hca, rfl⟩ := mem_create_regions.mp ha
  obtain ⟨rb, hrb, cb, hcb, rfl⟩ := mem_create_regions.mp hb
  have hid' : ra * cols + ca = rb * cols + cb := hid
  obtain ⟨hr, hc⟩ := row_major_inj hca hcb hid'
  subst hr
  subst hc
  rfl

/-- Id-equality (or shared null-ness) of two optional regions. -/
def option_same_id (o1 o2 : Option Region) : Prop :=
  match o1, o2 with
  | none, none => True
  | some a, some b => a.id = b.id
  | _, _ => False

/-- Claim C4 (amended): (1) a null sample leaves the region manager — the
current region and the whole transition history — untouched (only the
stored last sample changes); (2) redelivering the currently stored sample
is a complete no-op, so stale reads never produce a spurious transition;
(3) a fresh non-null sample stores the sample and forwards its coordinates
to the region manager; (4) the manager appends exactly one transition
stamped `now` and replaces the current region if and only if the newly
resolved region differs from the current one, and otherwise changes
nothing; (5) on a manager whose region ids are unique and whose current
region is drawn from its own region list (as holds for every created
grid), "differs" is exactly "differs by id-equality or null-ness". -/
theorem tracker_update_semantics :
    (∀ (st : RegionGridWidget.State) (now : ℚ),
        (RegionGridWidget.update_gaze_point st none now).region_manager =
          st.region_manager) ∧
    (∀ (st : RegionGridWidget.State) (now : ℚ),
        RegionGridWidget.update_gaze_point st st.current_gaze_point now = st) ∧
    (∀ (st : RegionGridWidget.State) (gp : GazePoint) (now : ℚ),
        some gp ≠ st.current_gaze_point →
        RegionGridWidget.update_gaze_point st (some gp) now =
          { region_manager := RegionManager.update_current_region st.region_manager
              gp.screen_x gp.screen_y now
            current_gaze_point := some gp }) ∧
    (∀ (m : RegionManager.State) (x y now : ℚ),
        (RegionManager.get_region_by_point m.regions x y = m.current_region →
          RegionManager.update_current_region m x y now = m) ∧
        (RegionManager.get_region_by_point m.regions x y ≠ m.current_region →
          RegionManager.update_current_region m x y now =
            { m with
                current_region := RegionManager.get_region_by_point m.regions x y
                region_history := m.region_history ++
                  [⟨RegionManager.get_region_by_point m.regions x y, now⟩] })) ∧
    (∀ (m : RegionManager.State) (x y : ℚ),
        (∀ a ∈ m.regions, ∀ b ∈ m.regions, a.id = b.id → a = b) →
        (m.current_region = none ∨ ∃ c ∈ m.regions, m.current_region = some c) →
        (RegionManager.get_region_by_point m.regions x y ≠ m.current_region ↔
          ¬ option_same_id (RegionManager.get_region_by_point m.regions x y)
              m.current_region)) := by
  refine ⟨?_, ?_, ?_, ?_, ?_⟩
  · intro st now
    unfold RegionGridWidget.update_gaze_point
    split_ifs with h
    · rfl
    · rfl
  · intro st now
    simp [RegionGridWidget.update_gaze_point]
  · intro st gp now h
    unfold RegionGridWidget.update_gaze_point
    rw [if_pos h]
  · intro m x y now
    constructor
    · intro heq
      simp [RegionManager.update_current_region, heq]
    · intro hne
      simp [RegionManager.update_current_region, hne]
  · intro m x y hinj hcur
    rcases hnew : RegionManager.get_region_by_point m.regions x y with _ | a
    · rcases hcur with hc | ⟨c, hcmem, hc⟩
      · rw [hc]
        simp [option_same_id]
      · rw [hc]
        simp [option_same_id]
    · have hamem : a ∈ m.regions :=
        List.mem_of_find?_eq_some (by simpa [RegionManager.get_region_by_point] using hnew)
      rcases hcur with hc | ⟨c, hcmem, hc⟩
      · rw [hc]
        simp [option_same_id]
      · rw [hc]
        simp only [option_same_id, ne_eq, Option.some.injEq]
        constructor
        · intro hne hid
          exact hne (hinj a hamem c hcmem hid)
        · intro hnid heq
          exact hnid (heq ▸ rfl)

/-- A region manager over a 1×2 grid of a 200×200 screen, tracking nothing
yet. -/
def manager_state_grid : RegionManager.State :=
  RegionManager.mk_manager 200 200 1 2

/-- Witness for claim C4 (amended): all five parts applied to concrete
states — a null sample and a stale sample leave the tracked state alone, a
fresh sample forwards to the manager, the manager appends exactly one
transition for the fresh region resolved at (50, 50) on a real grid, and
structural difference coincides with id/null-ness difference there. -/
theorem tracker_update_semantics_witness :
    ((RegionGridWidget.update_gaze_point widget_state_tracking none 5).region_manager =
      widget_state_tracking.region_manager) ∧
    (RegionGridWidget.update_gaze_point widget_state_tracking
        widget_state_tracking.current_gaze_point 5 = widget_state_tracking) ∧
    (RegionGridWidget.update_gaze_point widget_state_tracking (some ⟨150, 50, 1, 2⟩) 5 =
      { region_manager := RegionManager.update_current_region
          widget_state_tracking.region_manager 150 50 5
        current_gaze_point := some ⟨150, 50, 1, 2⟩ }) ∧
    (RegionManager.update_current_region manager_state_grid 50 50 9 =
      { manager_state_grid with
          current_region := RegionManager.get_region_by_point manager_state_grid.regions 50 50
          region_history := manager_state_grid.region_history ++
            [⟨RegionManager.get_region_by_point manager_state_grid.regions 50 50, 9⟩] }) ∧
    (RegionManager.get_region_by_point manager_state_grid.regions 50 50 ≠
        manager_state_grid.current_region ↔
      ¬ option_same_id (RegionManager.get_region_by_point manager_state_grid.regions 50 50)
          manager_state_grid.current_region) := by
  have hsome : (RegionManager.get_region_by_point manager_state_grid.regions 50 50).isSome :=
    List.find?_isSome.mpr
      ⟨_, mem_create_regions.mpr ⟨0, by norm_num, 0, by norm_num, rfl⟩,
       by norm_num [RegionManager.contains_point]⟩
  have hne : RegionManager.get_region_by_point manager_state_grid.regions 50 50 ≠
      manager_state_grid.current_region := by
    have h := Option.isSome_iff_ne_none.mp hsome
    simpa [manager_state_grid, RegionManager.mk_manager] using h
  refine ⟨tracker_update_semantics.1 widget_state_tracking 5,
    tracker_update_semantics.2.1 widget_state_tracking 5,
    tracker_update_semantics.2.2.1 widget_state_tracking ⟨150, 50, 1, 2⟩ 5 ?_,
    (tracker_update_semantics.2.2.2.1 manager_state_grid 50 50 9).2 hne,
    tracker_update_semantics.2.2.2.2 manager_state_grid 50 50 ?_ (Or.inl rfl)⟩
  · simp [widget_state_tracking]
  · exact create_regions_id_inj 200 200 1 2

/-! ## Statistics -/

/-- Counterexample to claim C7 as stated: on an empty result log,
`get_test_statistics` returns the empty dict `{}` (modelled `none`), not a
populated structure with `total_tests = 0`: there is no statistics record
at all, zero-valued or otherwise. -/
theorem empty_statistics_counterexample :
    ¬ ∃ s : TestStatistics, get_test_statistics [] = some s ∧
        s.total_tests = 0 ∧ s.success_rate = 0 ∧
        s.average_accuracy = 0 ∧ s.average_duration = 0 := by
  rintro ⟨s, hs, -⟩
  simp [get_test_statistics] at hs

/-- Claim C7 (amended): on an empty log `get_test_statistics` returns the
empty dict (`none`) — it does not throw, but the returned dict carries no
zero-valued fields; on every non-empty log it returns the populated
structure with `total_tests` the log length, `success_rate` the success
count over the total, and the mean accuracy and mean duration. -/
theorem statistics_formulas :
    (get_test_statistics [] = none) ∧
    (∀ (rs : List TestResult), rs ≠ [] →
      get_test_statistics rs = some
        { total_tests := rs.length
          success_rate := (((rs.filter (fun r => r.success)).length : ℚ)) / (rs.length : ℚ)
          average_accuracy := (rs.map (fun r => r.accuracy)).sum / (rs.length : ℚ)
          average_duration := (rs.map (fun r => r.duration)).sum / (rs.length : ℚ)
          results := rs }) := by
  constructor
  · rfl
  · intro rs h
    cases rs with
    | nil => exact absurd rfl h
    | cons a as => rfl

/-- Witness for claim C7 at a concrete one-element log: a single successful
dwell result with accuracy 1 and duration 3 yields total 1, success rate 1,
mean accuracy 1, mean duration 3. -/
theorem statistics_formulas_witness :
    get_test_statistics [⟨TestType.REGION_DWELL, true, 3, 1, none, [], 5⟩] =
      some { total_tests := 1, success_rate := 1, average_accuracy := 1,
             average_duration := 3,
             results := [⟨TestType.REGION_DWELL, true, 3, 1, none, [], 5⟩] } := by
  have h := statistics_formulas.2 [⟨TestType.REGION_DWELL, true, 3, 1, none, [], 5⟩]
    (by simp)
  rw [h]
  norm_num
